import Mathlib

/-
Verification of the auth-code-pkce OAuth 2.0 + PKCE protocol engine.

This file shallowly embeds the core of the library in Lean:
  * `validateState`            from src/.../crypto/state.ts
  * `parseTokenResponse`, `exchangeCodeForTokens`, `refreshAccessToken`,
    `TokenRefreshCoordinator`  from src/packages/core/src/oauth/token.ts
  * `buildAuthorizationUrl`    from src/packages/core/src/oauth/authorize.ts
  * `getAccessToken` and the client state machine from the OAuth client
    orchestrator (createOAuthClient).

Conventions of the embedding:
  * `string | null` becomes `Option String`; JavaScript truthiness of a
    nullable string (`!x` is true for both `null` and `""`) is `truthy`.
  * `number` timestamps are `Int` (milliseconds since epoch); JavaScript
    truthiness of a nullable number (`0` and `null` are falsy) is modelled
    explicitly where the source relies on it.
  * Storage adapters are modelled with ideal (in-memory) semantics: the
    five flow-storage keys the engine touches become the fields of
    `FlowStore`, and token storage becomes an `Option TokenState`.
  * The single HTTP call an operation performs is modelled by passing the
    outcome of that call (`Except Unit HttpResponse`) as a parameter; the
    `requested` flag of `ExchangeResult` records whether control reached
    the request at all.
  * Promise-based concurrency (the refresh coordinator) is modelled as a
    state machine over event-loop interleavings: `CoordEvent.call` is a
    synchronous invocation of `refresh`, `CoordEvent.settle` is the
    settlement of the in-flight refresh function.
-/

namespace AuthCodePkce

set_option linter.unusedVariables false

/-- Truthiness of a JavaScript `string | null`: `null` and `""` are falsy. -/
def truthy : Option String → Bool
  | none => false
  | some s => s != ""

/-- Does `needle` begin at the head of `hay`? (helper for substring tests) -/
def beginsWith : List Char → List Char → Bool
  | [], _ => true
  | _ :: _, [] => false
  | a :: as, b :: bs => a == b && beginsWith as bs

/-- Does `needle` occur contiguously in `hay`? (helper for substring tests) -/
def containsChars (needle : List Char) : List Char → Bool
  | [] => needle == []
  | c :: rest => beginsWith needle (c :: rest) || containsChars needle rest

/-- The string `hay` contains `needle` as a substring; used to state
"message contains ..." claims. -/
def containsSubstring (hay needle : String) : Bool :=
  containsChars needle.toList hay.toList

/-! ### crypto/state.ts -/

/-- Accumulated-XOR loop of `validateState`: `result |= r.charCodeAt(i) ^ s.charCodeAt(i)`
over all positions (both lists have equal length at the call site). -/
def stateScan (r s : List Char) : Nat :=
  (List.zip r s).foldl (fun acc p => acc ||| (p.1.toNat ^^^ p.2.toNat)) 0

/-- validateState from crypto/state.ts: false if either argument is null or
empty, false on differing lengths, else true iff the accumulated XOR over all
character positions is zero. -/
def validateState (receivedState storedState : Option String) : Bool :=
  match receivedState, storedState with
  | some r, some s =>
    if r == "" || s == "" then false
    else if r.length != s.length then false
    else stateScan r.toList s.toList == 0
  | _, _ => false

/-! ### Data model (types/oauth.ts, types/provider.ts) -/

/-- Wire-format token endpoint response (types/oauth.ts `TokenResponse`). -/
structure TokenResponse where
  access_token : String
  token_type : String
  expires_in : Option Nat := none
  refresh_token : Option String := none
  id_token : Option String := none
  scope : Option String := none
deriving DecidableEq, Repr

/-- Stored token state (types/oauth.ts `TokenState`). -/
structure TokenState where
  accessToken : String
  refreshToken : Option String
  idToken : Option String
  expiresAt : Option Int
  scope : Option String
deriving DecidableEq, Repr

/-- Error codes of types/oauth.ts `AuthErrorCode`. -/
inductive AuthErrorCode where
  | invalid_state
  | token_exchange_failed
  | token_refresh_failed
  | invalid_token
  | network_error
  | storage_error
  | configuration_error
  | callback_error
deriving DecidableEq, Repr

/-- Structured error (types/oauth.ts `AuthError`); the untyped `details`
payload carries only diagnostic data and is not modelled. -/
structure AuthError where
  code : AuthErrorCode
  message : String
deriving DecidableEq, Repr

/-- Provider endpoint URLs (types/provider.ts). -/
structure ProviderEndpoints where
  authorizationEndpoint : String
  tokenEndpoint : String
  logoutEndpoint : Option String := none
deriving DecidableEq, Repr

/-- Provider configuration (types/provider.ts `ProviderConfig`); the
`Record<string, string>` of extra authorization parameters becomes an
association list with distinct keys. -/
structure ProviderConfig where
  issuer : String
  clientId : String
  redirectUri : String
  scopes : List String
  endpoints : ProviderEndpoints
  additionalAuthParams : List (String × String) := []
deriving DecidableEq, Repr

/-- Flow storage restricted to the five keys the engine touches
(STORAGE_KEYS of types/storage.ts), with ideal adapter semantics:
a field is `none` when the key is absent. -/
structure FlowStore where
  codeVerifier : Option String := none
  state : Option String := none
  redirectUri : Option String := none
  preAuthPath : Option String := none
  previousAuthCode : Option String := none
deriving DecidableEq, Repr

/-- Query parameters of a callback URL as returned by `parseCallbackUrl`
(utils/url.ts): the `code`/`state`/`error`/`error_description` entries. -/
structure CallbackParams where
  code : Option String := none
  state : Option String := none
  error : Option String := none
  errorDescription : Option String := none
deriving DecidableEq, Repr

/-- HTTP client response as consumed by the token engine. -/
structure HttpResponse where
  status : Nat
  data : TokenResponse
deriving DecidableEq, Repr

/-! ### oauth/token.ts -/

/-- parseTokenResponse from oauth/token.ts. `response.expires_in ? ... : null`
uses number truthiness, so `expires_in = 0` yields a null expiry. `now` stands
for `Date.now()`. -/
def parseTokenResponse (response : TokenResponse) (now : Int) : TokenState :=
  { accessToken := response.access_token
    refreshToken := response.refresh_token
    idToken := response.id_token
    expiresAt :=
      match response.expires_in with
      | some e => if e = 0 then none else some (now + (e : Int) * 1000)
      | none => none
    scope := response.scope }

/-- Outcome of `exchangeCodeForTokens`: the tagged union
`{tokens, preAuthPath} | {error}`. -/
inductive ExchangeOutcome where
  | success (tokens : TokenState) (preAuthPath : String)
  | failure (e : AuthError)
deriving DecidableEq, Repr

/-- Result of one run of `exchangeCodeForTokens`: its return value, the flow
and token storage it leaves behind, and whether the token endpoint was
contacted (`requested`). -/
structure ExchangeResult where
  outcome : ExchangeOutcome
  flow : FlowStore
  tokenStorage : Option TokenState
  requested : Bool
deriving DecidableEq, Repr

/-- Non-200 error message of the exchange. -/
def statusMessage (status : Nat) : String :=
  "Token exchange failed with status " ++ toString status

/-- exchangeCodeForTokens from oauth/token.ts, with the callback URL already
parsed into `cb` and the outcome of the (at most one) token-endpoint request
passed as `http`. The request body (grant type, client id, redirect URI,
verifier) does not influence control flow and is not modelled. -/
def exchangeCodeForTokens (provider : ProviderConfig) (flow : FlowStore)
    (tokenStorage : Option TokenState) (http : Except Unit HttpResponse)
    (now : Int) (cb : CallbackParams) : ExchangeResult :=
  -- Check for OAuth error
  if truthy cb.error then
    ⟨.failure ⟨.callback_error, cb.errorDescription.getD (cb.error.getD "")⟩,
      flow, tokenStorage, false⟩
  -- Validate code exists
  else if !truthy cb.code then
    ⟨.failure ⟨.callback_error, "No authorization code in callback URL"⟩,
      flow, tokenStorage, false⟩
  -- Validate state against the stored state
  else if !validateState cb.state flow.state then
    ⟨.failure ⟨.invalid_state, "State parameter mismatch - possible CSRF attack"⟩,
      flow, tokenStorage, false⟩
  -- Get stored code verifier
  else if !truthy flow.codeVerifier then
    ⟨.failure ⟨.token_exchange_failed, "Code verifier not found in storage"⟩,
      flow, tokenStorage, false⟩
  else
    let code := cb.code.getD ""
    -- Pre-auth path is read before flow storage is cleared
    let preAuthPath := flow.preAuthPath.getD "/"
    -- Check for repeated auth code (prevents replay)
    if flow.previousAuthCode = some code then
      ⟨.failure ⟨.token_exchange_failed, "Authorization code already exchanged"⟩,
        flow, tokenStorage, false⟩
    else
      -- Store current code to prevent replay, then issue the request
      let flow1 := { flow with previousAuthCode := some code }
      match http with
      | .error _ =>
        ⟨.failure ⟨.network_error, "Failed to exchange authorization code"⟩,
          flow1, tokenStorage, true⟩
      | .ok resp =>
        if resp.status ≠ 200 then
          ⟨.failure ⟨.token_exchange_failed, statusMessage resp.status⟩,
            flow1, tokenStorage, true⟩
        else
          let tokens := parseTokenResponse resp.data now
          -- Clear flow state (except previous auth code)
          ⟨.success tokens preAuthPath,
            { flow1 with codeVerifier := none, state := none,
                         redirectUri := none, preAuthPath := none },
            some tokens, true⟩

/-- refreshAccessToken from oauth/token.ts: returns the refreshed state (or
`none`) together with the token storage it leaves behind.
`!currentTokens?.refreshToken` is string truthiness, so a missing stored
token, a null refresh token and an empty refresh token all short-circuit. -/
def refreshAccessToken (stored : Option TokenState)
    (http : Except Unit HttpResponse) (now : Int) :
    Option TokenState × Option TokenState :=
  match stored with
  | none => (none, none)
  | some t =>
    if !truthy t.refreshToken then (none, stored)
    else
      match http with
      | .error _ => (none, stored)
      | .ok resp =>
        if resp.status ≠ 200 then (none, stored)
        else
          let tokens := parseTokenResponse resp.data now
          (some tokens, some tokens)

/-! ### OAuth client orchestrator: getAccessToken -/

/-- Refresh lookahead window of `getAccessToken` (60 seconds, in ms). -/
def expirationBuffer : Int := 60 * 1000

/-- Guard of `getAccessToken`:
`tokens.expiresAt && tokens.expiresAt - expirationBuffer < Date.now()`.
Number truthiness makes both a null and a zero expiry skip the refresh. -/
def expiresSoon (expiresAt : Option Int) (now : Int) : Bool :=
  match expiresAt with
  | none => false
  | some e => if e = 0 then false else decide (e - expirationBuffer < now)

/-- getAccessToken of the OAuth client orchestrator: given the stored tokens,
the current time, and the outcome of `refreshToken()` (the token state the
refresh engine stored and returned, or `none` on failure — a failing refresh
leaves storage unchanged), produce the returned access token and the token
storage afterwards. -/
def getAccessToken (stored : Option TokenState) (now : Int)
    (refreshResult : Option TokenState) : Option String × Option TokenState :=
  match stored with
  | none => (none, none)
  | some tokens =>
    if expiresSoon tokens.expiresAt now then
      match refreshResult with
      | none => (none, stored)
      | some fresh => (some fresh.accessToken, some fresh)
    else
      (some tokens.accessToken, stored)

/-! ### TokenRefreshCoordinator (oauth/token.ts)

The coordinator is promise-based; its behaviour is determined by the
event-loop interleaving of synchronous `refresh` invocations and the
settlement of the in-flight refresh function. `CoordEvent.call c` is caller
`c` invoking `refresh(fn)` (the body up to returning the shared promise runs
atomically); `CoordEvent.settle r` is the in-flight `fn` settling with
result `r`, which runs the `finally` (clearing `refreshPromise`) and
delivers `r` to every caller awaiting the shared promise. -/

/-- Events of the coordinator model. -/
inductive CoordEvent (α : Type) where
  | call (caller : Nat)
  | settle (result : α)

/-- Coordinator state: the callers awaiting the in-flight promise (`none`
when `refreshPromise` is null), how often the refresh function was invoked,
and the results delivered to callers so far. -/
structure CoordState (α : Type) where
  inflight : Option (List Nat)
  fnCalls : Nat
  delivered : List (Nat × α)
deriving Repr

/-- Initial coordinator state: `refreshPromise = null`. -/
def coordInit {α : Type} : CoordState α := ⟨none, 0, []⟩

/-- One event-loop step of the coordinator. A `call` with no refresh in
progress invokes the refresh function and records the caller; a `call`
during a refresh just joins the waiters. A `settle` delivers the same
settled result to every waiter and clears the in-flight marker. -/
def coordStep {α : Type} (s : CoordState α) : CoordEvent α → CoordState α
  | .call c =>
    match s.inflight with
    | none => { s with inflight := some [c], fnCalls := s.fnCalls + 1 }
    | some l => { s with inflight := some (l ++ [c]) }
  | .settle r =>
    match s.inflight with
    | some l => { s with inflight := none,
                         delivered := s.delivered ++ l.map (fun c => (c, r)) }
    | none => s

/-- Run a sequence of coordinator events. -/
def coordRun {α : Type} (s : CoordState α) (events : List (CoordEvent α)) :
    CoordState α :=
  events.foldl coordStep s

/-- isRefreshing of the coordinator: `refreshPromise !== null`. -/
def isRefreshing {α : Type} (s : CoordState α) : Bool :=
  s.inflight.isSome

/-! ### OAuth client orchestrator: AuthState transitions -/

/-- In-memory client state (types/oauth.ts `AuthState`). The decoded JWT
payload and the user object matter to the claims only through their
null-ness, so both are modelled as `Option String`. -/
structure AuthState where
  isAuthenticated : Bool
  isLoading : Bool
  jwt : Option String
  user : Option String
  error : Option AuthError
deriving DecidableEq, Repr

/-- Initial state of `createOAuthClient`. -/
def initialAuthState : AuthState :=
  { isAuthenticated := false, isLoading := true, jwt := none,
    user := none, error := none }

/-- Reachable client states: `initialAuthState` plus the closure under the
five `setState` call sites of the orchestrator —
`setState({isLoading: true})` in handleCallback,
`setState({isLoading: false})` in initialize,
the full update of `loadUserFromTokens` (whose `jwt` argument is the decoded
ID token and may be null), the `handleError` update, and the `logout`
update. -/
inductive Reachable : AuthState → Prop where
  | init : Reachable initialAuthState
  | setLoading (s : AuthState) : Reachable s →
      Reachable { s with isLoading := true }
  | clearLoading (s : AuthState) : Reachable s →
      Reachable { s with isLoading := false }
  | loadUser (s : AuthState) (jwt user : Option String) : Reachable s →
      Reachable ⟨true, false, jwt, user, none⟩
  | fail (s : AuthState) (e : AuthError) : Reachable s →
      Reachable { s with error := some e, isLoading := false }
  | doLogout (s : AuthState) : Reachable s →
      Reachable { s with isAuthenticated := false, jwt := none, user := none, error := none }

/-! ### oauth/authorize.ts -/

/-- PKCE_CHALLENGE_METHOD from crypto/pkce.ts. -/
def PKCE_CHALLENGE_METHOD : String := "S256"

/-- Options of `buildAuthorizationUrl` (oauth/authorize.ts
`AuthorizeOptions`); the `Record<string, string>` of extra parameters
becomes an association list with distinct keys. -/
structure AuthorizeOptions where
  preservePath : Bool := false
  prompt : Option String := none
  additionalParams : List (String × String) := []
deriving Repr

/-- First-match lookup in an association list (the key sets modelled here
come from JavaScript objects, whose keys are distinct). -/
def lookupParam : List (String × String) → String → Option String
  | [], _ => none
  | (k, v) :: rest, key => if k = key then some v else lookupParam rest key

/-- The fixed parameters `buildAuthorizationUrl` puts into the params record
before spreading the extra parameter objects over them. `codeChallenge` and
`st` stand for the freshly generated PKCE challenge and state value. -/
def baseAuthParams (provider : ProviderConfig) (options : AuthorizeOptions)
    (codeChallenge st : String) (key : String) : Option String :=
  if key = "client_id" then some provider.clientId
  else if key = "response_type" then some "code"
  else if key = "scope" then some (String.intercalate " " provider.scopes)
  else if key = "redirect_uri" then some provider.redirectUri
  else if key = "code_challenge" then some codeChallenge
  else if key = "code_challenge_method" then some PKCE_CHALLENGE_METHOD
  else if key = "state" then some st
  else if key = "prompt" then options.prompt
  else none

/-- Value of query parameter `key` in the URL built by
`buildAuthorizationUrl`: the params record is
`{...base, ...provider.additionalAuthParams, ...options.additionalParams}`,
so later spreads win on key collision, and `buildUrl` writes exactly the
defined entries of the record into the URL. -/
def authUrlParam (provider : ProviderConfig) (options : AuthorizeOptions)
    (codeChallenge st : String) (key : String) : Option String :=
  match lookupParam options.additionalParams key with
  | some v => some v
  | none =>
    match lookupParam provider.additionalAuthParams key with
    | some v => some v
    | none => baseAuthParams provider options codeChallenge st key

/-- Flow-storage effect of `buildAuthorizationUrl`: it writes the fresh
verifier, state and the provider redirect URI, and writes the pre-auth path
only when `preservePath` is set and the current path is truthy (otherwise
the previously stored value is left in place). -/
def buildAuthorizationUrlFlow (provider : ProviderConfig)
    (options : AuthorizeOptions) (codeVerifier st currentPath : String)
    (flow : FlowStore) : FlowStore :=
  { flow with
    codeVerifier := some codeVerifier
    state := some st
    redirectUri := some provider.redirectUri
    preAuthPath :=
      if options.preservePath && currentPath != "" then some currentPath
      else flow.preAuthPath }

/-! ### Concrete fixtures used by witnesses and counterexamples -/

/-- A sample provider configuration (mirrors the repository's test fixture). -/
def sampleProvider : ProviderConfig :=
  { issuer := "https://auth.example.com"
    clientId := "test-client"
    redirectUri := "http://localhost:3000/callback"
    scopes := ["openid", "profile"]
    endpoints :=
      { authorizationEndpoint := "https://auth.example.com/authorize"
        tokenEndpoint := "https://auth.example.com/token" } }

/-- A sample successful token-endpoint response body. -/
def sampleTokenResponse : TokenResponse :=
  { access_token := "mock-access-token"
    token_type := "Bearer"
    expires_in := some 3600
    refresh_token := some "mock-refresh-token" }

/-- Flow storage holding a verifier and a state, as before a callback. -/
def c1Flow : FlowStore :=
  { codeVerifier := some "test-verifier", state := some "test-state" }

/-- Callback parameters of a successful provider redirect. -/
def c1Callback : CallbackParams :=
  { code := some "auth-code-123", state := some "test-state" }

/-- First exchange of code "auth-code-123": all checks pass, the endpoint
answers 200. -/
def c1First : ExchangeResult :=
  exchangeCodeForTokens sampleProvider c1Flow none
    (.ok ⟨200, sampleTokenResponse⟩) 1000 c1Callback

/-- Second exchange attempt with the very same callback URL, on the storage
the first exchange left behind. -/
def c1Second : ExchangeResult :=
  exchangeCodeForTokens sampleProvider c1First.flow c1First.tokenStorage
    (.ok ⟨200, sampleTokenResponse⟩) 2000 c1Callback

/-- Previously stored tokens carrying a refresh token. -/
def sampleTokens : TokenState :=
  ⟨"old-access", some "old-refresh", some "old-id", some 5000, some "openid"⟩

/-- Stored tokens whose expiry timestamp is exactly 0 (the epoch). -/
def c3StaleTokens : TokenState :=
  ⟨"stale-access", some "refresh", none, some 0, none⟩

/-- A token response carrying expires_in = 0. -/
def zeroExpiryResponse : TokenResponse :=
  ⟨"a", "Bearer", some 0, none, none, none⟩

/-- Tokens a successful refresh would store. -/
def c3FreshTokens : TokenState :=
  ⟨"fresh-access", some "refresh-2", none, some 1700000003600000, none⟩

/-! ## Theorems -/

/-! ### Helper lemmas for the constant-time state comparison -/

theorem lor_eq_zero_iff (m n : Nat) : m ||| n = 0 ↔ m = 0 ∧ n = 0 := by
  constructor
  · intro h
    constructor
    · by_contra hm
      rcases Nat.exists_most_significant_bit hm with ⟨i, hi, _⟩
      have h2 : (m ||| n).testBit i = true := by
        rw [Nat.testBit_lor, hi]; rfl
      rw [h] at h2
      simp [Nat.zero_testBit] at h2
    · by_contra hn
      rcases Nat.exists_most_significant_bit hn with ⟨i, hi, _⟩
      have h2 : (m ||| n).testBit i = true := by
        rw [Nat.testBit_lor, hi, Bool.or_true]
      rw [h] at h2
      simp [Nat.zero_testBit] at h2
  · rintro ⟨rfl, rfl⟩
    rfl

theorem foldl_lor_eq_zero {β : Type} (f : β → Nat) (l : List β) : ∀ a : Nat,
    (l.foldl (fun acc p => acc ||| f p) a = 0 ↔ a = 0 ∧ ∀ p ∈ l, f p = 0) := by
  induction l with
  | nil => intro a; simp
  | cons b l ih =>
    intro a
    simp only [List.foldl_cons, ih, lor_eq_zero_iff, List.mem_cons]
    constructor
    · rintro ⟨⟨ha, hb⟩, hl⟩
      exact ⟨ha, fun p hp => hp.elim (fun h => h ▸ hb) (hl p)⟩
    · rintro ⟨ha, h⟩
      exact ⟨⟨ha, h b (Or.inl rfl)⟩, fun p hp => h p (Or.inr hp)⟩

theorem char_toNat_inj {c d : Char} (h : c.toNat = d.toNat) : c = d :=
  Char.ext (UInt32.ext h)

theorem zip_self_xor {l : List Char} :
    ∀ p ∈ List.zip l l, p.1.toNat ^^^ p.2.toNat = 0 := by
  induction l with
  | nil => intro p hp; simp at hp
  | cons a l ih =>
    intro p hp
    rw [List.zip_cons_cons] at hp
    rcases List.mem_cons.mp hp with rfl | hp
    · simp
    · exact ih p hp

theorem zip_xor_eq {r : List Char} : ∀ {s : List Char}, r.length = s.length →
    (∀ p ∈ List.zip r s, p.1.toNat ^^^ p.2.toNat = 0) → r = s := by
  induction r with
  | nil =>
    intro s hlen _
    cases s with
    | nil => rfl
    | cons b s => simp at hlen
  | cons a r ih =>
    intro s hlen h
    cases s with
    | nil => simp at hlen
    | cons b s =>
      simp only [List.length_cons, Nat.succ.injEq] at hlen
      simp only [List.zip_cons_cons, List.mem_cons] at h
      have hab : a = b :=
        char_toNat_inj (Nat.xor_eq_zero.mp (h (a, b) (Or.inl rfl)))
      have hrs : r = s := ih hlen (fun p hp => h p (Or.inr hp))
      rw [hab, hrs]

theorem stateScan_eq_zero_iff {r s : List Char} (hlen : r.length = s.length) :
    (stateScan r s = 0 ↔ r = s) := by
  unfold stateScan
  rw [foldl_lor_eq_zero]
  simp only [true_and]
  constructor
  · exact zip_xor_eq hlen
  · rintro rfl
    exact zip_self_xor

theorem string_ext {s t : String} (h : s.toList = t.toList) : s = t := by
  cases s; cases t
  simp only [String.toList] at h
  exact congrArg String.mk h

/-- Characterization of validateState: it accepts exactly two equal,
non-null, non-empty strings. -/
theorem validateState_true_iff (a b : Option String) :
    validateState a b = true ↔ ∃ s, a = some s ∧ b = some s ∧ s ≠ "" := by
  cases a with
  | none => simp [validateState]
  | some r =>
    cases b with
    | none => simp [validateState]
    | some s =>
      by_cases hr : r = ""
      · subst hr; simp [validateState]
      · by_cases hs : s = ""
        · subst hs
          constructor
          · intro h
            exfalso
            simp [validateState] at h
          · rintro ⟨t, h1, h2, ht⟩
            cases h1; cases h2
            exact absurd rfl ht
        · by_cases hlen : r.length = s.length
          · have hv : validateState (some r) (some s) =
                (stateScan r.toList s.toList == 0) := by
              simp [validateState, hr, hs, hlen]
            rw [hv]
            simp only [beq_iff_eq]
            rw [@stateScan_eq_zero_iff r.toList s.toList hlen]
            constructor
            · intro h
              refine ⟨r, rfl, ?_, hr⟩
              rw [string_ext h]
            · rintro ⟨t, h1, h2, _⟩
              cases h1; cases h2; rfl
          · have hv : validateState (some r) (some s) = false := by
              simp [validateState, hr, hs, hlen]
            rw [hv]
            simp only [Bool.false_eq_true, false_iff]
            rintro ⟨t, h1, h2, _⟩
            cases h1; cases h2; exact hlen rfl

/-- C5: validateState returns false when either argument is null or empty or
the lengths differ; otherwise it returns true iff the two strings are equal
character for character (the accumulated XOR is zero exactly on equality);
validateState s s is true for every non-empty s, and validateState a b is
false whenever a and b differ. -/
theorem c5_theorem (a b : Option String) :
    (validateState a b = true ↔ ∃ s, a = some s ∧ b = some s ∧ s ≠ "") ∧
    validateState none b = false ∧
    validateState a none = false ∧
    (∀ s : String, validateState (some s) (some "") = false ∧
      validateState (some "") (some s) = false) ∧
    (∀ s t : String, s.length ≠ t.length →
      validateState (some s) (some t) = false) ∧
    (∀ s : String, s ≠ "" → validateState (some s) (some s) = true) ∧
    (∀ s t : String, s ≠ t → validateState (some s) (some t) = false) := by
  refine ⟨validateState_true_iff a b, ?_, ?_, ?_, ?_, ?_, ?_⟩
  · cases b <;> rfl
  · cases a <;> rfl
  · intro s
    constructor
    · rw [Bool.eq_false_iff]
      intro h
      rcases (validateState_true_iff _ _).mp h with ⟨t, _, h2, ht⟩
      cases h2
      exact ht rfl
    · rw [Bool.eq_false_iff]
      intro h
      rcases (validateState_true_iff _ _).mp h with ⟨t, h1, _, ht⟩
      cases h1
      exact ht rfl
  · intro s t hlen
    rw [Bool.eq_false_iff]
    intro h
    rcases (validateState_true_iff _ _).mp h with ⟨u, h1, h2, _⟩
    cases h1; cases h2
    exact hlen rfl
  · intro s hs
    exact (validateState_true_iff _ _).mpr ⟨s, rfl, rfl, hs⟩
  · intro s t hst
    rw [Bool.eq_false_iff]
    intro h
    rcases (validateState_true_iff _ _).mp h with ⟨u, h1, h2, _⟩
    cases h1; cases h2
    exact hst rfl

/-- C5 witness: the theorem applied to concrete states. -/
theorem c5_witness :
    validateState (some "state-1") (some "state-1") = true ∧
    validateState (some "state-1") (some "state-2") = false :=
  ⟨(c5_theorem (some "state-1") (some "state-1")).2.2.2.2.2.1 "state-1"
      (by decide),
   (c5_theorem (some "state-1") (some "state-2")).2.2.2.2.2.2
      "state-1" "state-2" (by decide)⟩


theorem validateState_false_of_ne {a : Option String} {s : String}
    (ha : a = some s) {b : Option String} (hb : b ≠ some s) :
    validateState a b = false := by
  rw [Bool.eq_false_iff]
  intro h
  rcases (validateState_true_iff _ _).mp h with ⟨t, h1, h2, _⟩
  rw [ha] at h1
  cases h1
  exact hb h2

/-- C2: exchangeCodeForTokens validates in the fixed order — an error query
parameter yields callback_error; else a missing code yields callback_error;
else a state that does not validate against the stored state yields
invalid_state; else a missing stored code verifier yields
token_exchange_failed — and the first failure wins (no request is sent on
any of these paths). In particular, a callback carrying a code and a state
that does not match the stored state yields invalid_state and the HTTP
client is never invoked. -/
theorem c2_theorem (provider : ProviderConfig) (flow : FlowStore)
    (tok : Option TokenState) (http : Except Unit HttpResponse) (now : Int)
    (cb : CallbackParams) :
    (truthy cb.error = true →
      (exchangeCodeForTokens provider flow tok http now cb).outcome =
        .failure ⟨.callback_error, cb.errorDescription.getD (cb.error.getD "")⟩ ∧
      (exchangeCodeForTokens provider flow tok http now cb).requested = false) ∧
    (truthy cb.error = false → truthy cb.code = false →
      (exchangeCodeForTokens provider flow tok http now cb).outcome =
        .failure ⟨.callback_error, "No authorization code in callback URL"⟩ ∧
      (exchangeCodeForTokens provider flow tok http now cb).requested = false) ∧
    (truthy cb.error = false → truthy cb.code = true →
      validateState cb.state flow.state = false →
      (exchangeCodeForTokens provider flow tok http now cb).outcome =
        .failure ⟨.invalid_state, "State parameter mismatch - possible CSRF attack"⟩ ∧
      (exchangeCodeForTokens provider flow tok http now cb).requested = false) ∧
    (truthy cb.error = false → truthy cb.code = true →
      validateState cb.state flow.state = true →
      truthy flow.codeVerifier = false →
      (exchangeCodeForTokens provider flow tok http now cb).outcome =
        .failure ⟨.token_exchange_failed, "Code verifier not found in storage"⟩ ∧
      (exchangeCodeForTokens provider flow tok http now cb).requested = false) ∧
    (∀ s : String, truthy cb.error = false → truthy cb.code = true →
      cb.state = some s → flow.state ≠ some s →
      (exchangeCodeForTokens provider flow tok http now cb).outcome =
        .failure ⟨.invalid_state, "State parameter mismatch - possible CSRF attack"⟩ ∧
      (exchangeCodeForTokens provider flow tok http now cb).requested = false) := by
  refine ⟨?_, ?_, ?_, ?_, ?_⟩
  · intro h1
    constructor <;> simp [exchangeCodeForTokens, h1]
  · intro h1 h2
    constructor <;> simp [exchangeCodeForTokens, h1, h2]
  · intro h1 h2 h3
    constructor <;> simp [exchangeCodeForTokens, h1, h2, h3]
  · intro h1 h2 h3 h4
    constructor <;> simp [exchangeCodeForTokens, h1, h2, h3, h4]
  · intro s h1 h2 hs hne
    have h3 : validateState cb.state flow.state = false :=
      validateState_false_of_ne hs hne
    constructor <;> simp [exchangeCodeForTokens, h1, h2, h3]

theorem validateState_none_right (a : Option String) :
    validateState a none = false := by
  cases a <;> rfl

/-- Branch equation: state-mismatch failure of the exchange. -/
theorem exchange_invalid_state (provider : ProviderConfig) (flow : FlowStore)
    (tok : Option TokenState) (http : Except Unit HttpResponse) (now : Int)
    (cb : CallbackParams) (h1 : truthy cb.error = false)
    (h2 : truthy cb.code = true)
    (hv : validateState cb.state flow.state = false) :
    exchangeCodeForTokens provider flow tok http now cb =
      ⟨.failure ⟨.invalid_state,
        "State parameter mismatch - possible CSRF attack"⟩,
       flow, tok, false⟩ := by
  simp [exchangeCodeForTokens, h1, h2, hv]

/-- Branch equation: replay-guard failure of the exchange. -/
theorem exchange_replay (provider : ProviderConfig) (flow : FlowStore)
    (tok : Option TokenState) (http : Except Unit HttpResponse) (now : Int)
    (cb : CallbackParams) (c : String) (h1 : truthy cb.error = false)
    (hc : cb.code = some c) (h2 : truthy cb.code = true)
    (h3 : validateState cb.state flow.state = true)
    (h4 : truthy flow.codeVerifier = true)
    (hprev : flow.previousAuthCode = some c) :
    exchangeCodeForTokens provider flow tok http now cb =
      ⟨.failure ⟨.token_exchange_failed,
        "Authorization code already exchanged"⟩,
       flow, tok, false⟩ := by
  rw [hc] at h2
  simp [exchangeCodeForTokens, h1, h2, h3, h4, hc, hprev]

/-- Branch equation: transport failure of the exchange (request was sent,
the replay guard is already written). -/
theorem exchange_transport_fail (provider : ProviderConfig) (flow : FlowStore)
    (tok : Option TokenState) (now : Int)
    (cb : CallbackParams) (c : String) (h1 : truthy cb.error = false)
    (hc : cb.code = some c) (h2 : truthy cb.code = true)
    (h3 : validateState cb.state flow.state = true)
    (h4 : truthy flow.codeVerifier = true)
    (hprev : flow.previousAuthCode ≠ some c) :
    exchangeCodeForTokens provider flow tok (.error ()) now cb =
      ⟨.failure ⟨.network_error, "Failed to exchange authorization code"⟩,
       { flow with previousAuthCode := some c }, tok, true⟩ := by
  rw [hc] at h2
  simp [exchangeCodeForTokens, h1, h2, h3, h4, hc, hprev]

/-- Branch equation: non-200 response of the exchange (request was sent,
the replay guard is already written). -/
theorem exchange_non200 (provider : ProviderConfig) (flow : FlowStore)
    (tok : Option TokenState) (resp : HttpResponse) (now : Int)
    (cb : CallbackParams) (c : String) (h1 : truthy cb.error = false)
    (hc : cb.code = some c) (h2 : truthy cb.code = true)
    (h3 : validateState cb.state flow.state = true)
    (h4 : truthy flow.codeVerifier = true)
    (hprev : flow.previousAuthCode ≠ some c) (hst : resp.status ≠ 200) :
    exchangeCodeForTokens provider flow tok (.ok resp) now cb =
      ⟨.failure ⟨.token_exchange_failed, statusMessage resp.status⟩,
       { flow with previousAuthCode := some c }, tok, true⟩ := by
  rw [hc] at h2
  simp [exchangeCodeForTokens, h1, h2, h3, h4, hc, hprev, hst]

theorem exchange_success_clears {provider : ProviderConfig} {flow : FlowStore}
    {tok : Option TokenState} {http : Except Unit HttpResponse} {now : Int}
    {cb : CallbackParams}
    (h : ∃ t path,
      (exchangeCodeForTokens provider flow tok http now cb).outcome =
        .success t path) :
    (exchangeCodeForTokens provider flow tok http now cb).flow.state = none ∧
    truthy cb.error = false ∧ truthy cb.code = true := by
  obtain ⟨t, path, h⟩ := h
  by_cases h1 : truthy cb.error
  · exfalso; simp [exchangeCodeForTokens, h1] at h
  · by_cases h2 : truthy cb.code
    · by_cases h3 : validateState cb.state flow.state
      · by_cases h4 : truthy flow.codeVerifier
        · by_cases h5 : flow.previousAuthCode = some (cb.code.getD "")
          · exfalso; simp [exchangeCodeForTokens, h1, h2, h3, h4, h5] at h
          · cases http with
            | error e =>
              exfalso
              simp [exchangeCodeForTokens, h1, h2, h3, h4, h5] at h
            | ok resp =>
              by_cases h6 : resp.status = 200
              · refine ⟨?_, by simp [h1], h2⟩
                simp [exchangeCodeForTokens, h1, h2, h3, h4, h5, h6]
              · exfalso
                simp [exchangeCodeForTokens, h1, h2, h3, h4, h5, h6] at h
        · exfalso; simp [exchangeCodeForTokens, h1, h2, h3, h4] at h
      · exfalso; simp [exchangeCodeForTokens, h1, h2, h3] at h
    · exfalso; simp [exchangeCodeForTokens, h1, h2] at h

/-- C1 counterexample: with flow storage holding verifier "test-verifier"
and state "test-state", the first exchange of code "auth-code-123" succeeds
and stores the tokens, but the second call with the very same callback URL
fails with kind invalid_state — not token_exchange_failed — and its message
does not contain "already exchanged", because the successful first exchange
removed the state key from flow storage. -/
theorem c1_counterexample :
    c1First.outcome =
      .success ⟨"mock-access-token", some "mock-refresh-token", none,
        some 3601000, none⟩ "/" ∧
    c1First.tokenStorage =
      some ⟨"mock-access-token", some "mock-refresh-token", none,
        some 3601000, none⟩ ∧
    c1Second.outcome =
      .failure ⟨.invalid_state, "State parameter mismatch - possible CSRF attack"⟩ ∧
    c1Second.requested = false ∧
    AuthErrorCode.invalid_state ≠ AuthErrorCode.token_exchange_failed ∧
    containsSubstring "State parameter mismatch - possible CSRF attack"
      "already exchanged" = false := by
  refine ⟨by decide, by decide, by decide, by decide, by decide, by decide⟩

/-- C1 amended: after a successful first exchange, a second call with the
same callback URL sends no request to the token endpoint and fails, but with
kind invalid_state (the first exchange cleared the stored state); the
token_exchange_failed error with message containing "already exchanged"
arises when flow storage again holds a verifier and a matching state and the
replay-guard key equals the attempted code. In both situations the same
authorization code is never exchanged twice. -/
theorem c1_theorem :
    (∀ (provider : ProviderConfig) (flow : FlowStore) (tok : Option TokenState)
       (http http2 : Except Unit HttpResponse) (now now2 : Int)
       (cb : CallbackParams),
      (∃ t path,
        (exchangeCodeForTokens provider flow tok http now cb).outcome =
          .success t path) →
      (exchangeCodeForTokens provider
          (exchangeCodeForTokens provider flow tok http now cb).flow
          (exchangeCodeForTokens provider flow tok http now cb).tokenStorage
          http2 now2 cb).outcome =
        .failure ⟨.invalid_state,
          "State parameter mismatch - possible CSRF attack"⟩ ∧
      (exchangeCodeForTokens provider
          (exchangeCodeForTokens provider flow tok http now cb).flow
          (exchangeCodeForTokens provider flow tok http now cb).tokenStorage
          http2 now2 cb).requested = false) ∧
    (∀ (provider : ProviderConfig) (flow : FlowStore) (tok : Option TokenState)
       (http : Except Unit HttpResponse) (now : Int) (cb : CallbackParams)
       (c : String),
      truthy cb.error = false → cb.code = some c → truthy cb.code = true →
      validateState cb.state flow.state = true →
      truthy flow.codeVerifier = true →
      flow.previousAuthCode = some c →
      (exchangeCodeForTokens provider flow tok http now cb).outcome =
        .failure ⟨.token_exchange_failed,
          "Authorization code already exchanged"⟩ ∧
      (exchangeCodeForTokens provider flow tok http now cb).requested = false ∧
      containsSubstring "Authorization code already exchanged"
        "already exchanged" = true) := by
  constructor
  · intro provider flow tok http http2 now now2 cb h
    obtain ⟨hstate, h1, h2⟩ := exchange_success_clears h
    have hv : validateState cb.state
        (exchangeCodeForTokens provider flow tok http now cb).flow.state =
        false := by
      rw [hstate]
      exact validateState_none_right cb.state
    rw [exchange_invalid_state provider _ _ http2 now2 cb h1 h2 hv]
    exact ⟨rfl, rfl⟩
  · intro provider flow tok http now cb c h1 hc h2 h3 h4 hprev
    rw [exchange_replay provider flow tok http now cb c h1 hc h2 h3 h4 hprev]
    exact ⟨rfl, rfl, by decide⟩


/-- C10: when all five validation checks pass but the token-endpoint request
fails (transport error or non-200), the replay guard has already been set to
the attempted code while token storage and the verifier, state, redirect-URI
and pre-auth-path flow keys are unchanged; an immediate retry of the
identical callback URL then fails with token_exchange_failed whose message
contains "already exchanged", without any further token-endpoint request. -/
theorem c10_theorem (provider : ProviderConfig) (flow : FlowStore)
    (tok : Option TokenState) (http http2 : Except Unit HttpResponse)
    (now now2 : Int) (cb : CallbackParams) (c : String)
    (h1 : truthy cb.error = false) (hc : cb.code = some c)
    (h2 : truthy cb.code = true)
    (h3 : validateState cb.state flow.state = true)
    (h4 : truthy flow.codeVerifier = true)
    (hprev : flow.previousAuthCode ≠ some c)
    (hfail : http = .error () ∨ ∃ resp, http = .ok resp ∧ resp.status ≠ 200) :
    (∃ e, (exchangeCodeForTokens provider flow tok http now cb).outcome =
      .failure e) ∧
    (exchangeCodeForTokens provider flow tok http now cb).flow =
      { flow with previousAuthCode := some c } ∧
    (exchangeCodeForTokens provider flow tok http now cb).tokenStorage = tok ∧
    (exchangeCodeForTokens provider flow tok http now cb).requested = true ∧
    (exchangeCodeForTokens provider
        (exchangeCodeForTokens provider flow tok http now cb).flow
        (exchangeCodeForTokens provider flow tok http now cb).tokenStorage
        http2 now2 cb).outcome =
      .failure ⟨.token_exchange_failed,
        "Authorization code already exchanged"⟩ ∧
    (exchangeCodeForTokens provider
        (exchangeCodeForTokens provider flow tok http now cb).flow
        (exchangeCodeForTokens provider flow tok http now cb).tokenStorage
        http2 now2 cb).requested = false ∧
    containsSubstring "Authorization code already exchanged"
      "already exchanged" = true := by
  have hsec := exchange_replay provider { flow with previousAuthCode := some c }
    tok http2 now2 cb c h1 hc h2 h3 h4 rfl
  rcases hfail with rfl | ⟨resp, rfl, hst⟩
  · rw [exchange_transport_fail provider flow tok now cb c h1 hc h2 h3 h4 hprev]
    exact ⟨⟨_, rfl⟩, rfl, rfl, rfl, congrArg ExchangeResult.outcome hsec,
      congrArg ExchangeResult.requested hsec, by decide⟩
  · rw [exchange_non200 provider flow tok resp now cb c h1 hc h2 h3 h4 hprev hst]
    exact ⟨⟨_, rfl⟩, rfl, rfl, rfl, congrArg ExchangeResult.outcome hsec,
      congrArg ExchangeResult.requested hsec, by decide⟩

/-- C1 witness: the amended theorem applied to the concrete replay
scenario. -/
theorem c1_witness :
    (exchangeCodeForTokens sampleProvider
        (exchangeCodeForTokens sampleProvider c1Flow none
          (.ok ⟨200, sampleTokenResponse⟩) 1000 c1Callback).flow
        (exchangeCodeForTokens sampleProvider c1Flow none
          (.ok ⟨200, sampleTokenResponse⟩) 1000 c1Callback).tokenStorage
        (.ok ⟨200, sampleTokenResponse⟩) 2000 c1Callback).outcome =
      .failure ⟨.invalid_state,
        "State parameter mismatch - possible CSRF attack"⟩ ∧
    (exchangeCodeForTokens sampleProvider
        ⟨some "test-verifier", some "test-state", none, none,
          some "auth-code-123"⟩ none (.error ()) 3000 c1Callback).outcome =
      .failure ⟨.token_exchange_failed,
        "Authorization code already exchanged"⟩ :=
  ⟨(c1_theorem.1 sampleProvider c1Flow none (.ok ⟨200, sampleTokenResponse⟩)
      (.ok ⟨200, sampleTokenResponse⟩) 1000 2000 c1Callback
      ⟨⟨"mock-access-token", some "mock-refresh-token", none, some 3601000,
        none⟩, "/", by decide⟩).1,
   (c1_theorem.2 sampleProvider
      ⟨some "test-verifier", some "test-state", none, none,
        some "auth-code-123"⟩ none (.error ()) 3000 c1Callback
      "auth-code-123" rfl rfl rfl (by decide) rfl rfl).1⟩

/-- C2 witness: the validation-order theorem applied to a callback with a
mismatched state. -/
theorem c2_witness :
    (exchangeCodeForTokens sampleProvider c1Flow none
        (.ok ⟨200, sampleTokenResponse⟩) 1000
        ⟨some "auth-code-123", some "wrong-state", none, none⟩).outcome =
      .failure ⟨.invalid_state,
        "State parameter mismatch - possible CSRF attack"⟩ ∧
    (exchangeCodeForTokens sampleProvider c1Flow none
        (.ok ⟨200, sampleTokenResponse⟩) 1000
        ⟨some "auth-code-123", some "wrong-state", none, none⟩).requested =
      false :=
  (c2_theorem sampleProvider c1Flow none (.ok ⟨200, sampleTokenResponse⟩) 1000
    ⟨some "auth-code-123", some "wrong-state", none, none⟩).2.2.1
    rfl rfl (by decide)

/-- C10 witness: the theorem applied to a concrete 500 response followed by
a retry. -/
theorem c10_witness :
    (exchangeCodeForTokens sampleProvider
        (exchangeCodeForTokens sampleProvider c1Flow none
          (.ok ⟨500, sampleTokenResponse⟩) 1000 c1Callback).flow
        (exchangeCodeForTokens sampleProvider c1Flow none
          (.ok ⟨500, sampleTokenResponse⟩) 1000 c1Callback).tokenStorage
        (.ok ⟨200, sampleTokenResponse⟩) 2000 c1Callback).outcome =
      .failure ⟨.token_exchange_failed,
        "Authorization code already exchanged"⟩ ∧
    (exchangeCodeForTokens sampleProvider c1Flow none
        (.ok ⟨500, sampleTokenResponse⟩) 1000 c1Callback).requested = true :=
  have h := c10_theorem sampleProvider c1Flow none
    (.ok ⟨500, sampleTokenResponse⟩) (.ok ⟨200, sampleTokenResponse⟩)
    1000 2000 c1Callback "auth-code-123" rfl rfl rfl (by decide) rfl
    (by decide) (Or.inr ⟨⟨500, sampleTokenResponse⟩, rfl, by decide⟩)
  ⟨h.2.2.2.2.1, h.2.2.2.1⟩

/-- C9: parseTokenResponse sets expiresAt to now plus expires_in seconds (in
milliseconds) whenever the server provided a (nonzero) expires_in, and
expiresAt is null exactly when expires_in is absent — the number-truthiness
check grouping expires_in = 0 with the absent case. -/
theorem c9_theorem (response : TokenResponse) (now : Int) :
    (∀ e : Nat, response.expires_in = some e → e ≠ 0 →
      (parseTokenResponse response now).expiresAt =
        some (now + (e : Int) * 1000)) ∧
    ((parseTokenResponse response now).expiresAt = none ↔
      (response.expires_in = none ∨ response.expires_in = some 0)) := by
  constructor
  · intro e he hne
    simp [parseTokenResponse, he, hne]
  · cases he : response.expires_in with
    | none => simp [parseTokenResponse, he]
    | some e =>
      by_cases hz : e = 0
      · subst hz; simp [parseTokenResponse, he]
      · simp [parseTokenResponse, he, hz]

/-- C9 witness: the theorem applied to a 3600-second expiry and to an
expires_in of 0. -/
theorem c9_witness :
    (parseTokenResponse sampleTokenResponse 1000).expiresAt = some 3601000 ∧
    (parseTokenResponse zeroExpiryResponse 1000).expiresAt = none :=
  ⟨(c9_theorem sampleTokenResponse 1000).1 3600 rfl (by decide),
   (c9_theorem zeroExpiryResponse 1000).2.mpr (Or.inr rfl)⟩

/-- C6: refreshAccessToken is total (never throws in the embedding) and
returns null leaving storage unchanged when there are no stored tokens, no
(truthy) refresh token, a transport failure or a non-200 response; on a 200
response it parses, persists and returns the new TokenState, which wholly
replaces the previous one in token storage. -/
theorem c6_theorem (stored : Option TokenState)
    (http : Except Unit HttpResponse) (now : Int) :
    (stored = none → refreshAccessToken stored http now = (none, none)) ∧
    (∀ t, stored = some t → truthy t.refreshToken = false →
      refreshAccessToken stored http now = (none, stored)) ∧
    (∀ t, stored = some t → truthy t.refreshToken = true →
      http = .error () →
      refreshAccessToken stored http now = (none, stored)) ∧
    (∀ t resp, stored = some t → truthy t.refreshToken = true →
      http = .ok resp → resp.status ≠ 200 →
      refreshAccessToken stored http now = (none, stored)) ∧
    (∀ t resp, stored = some t → truthy t.refreshToken = true →
      http = .ok resp → resp.status = 200 →
      refreshAccessToken stored http now =
        (some (parseTokenResponse resp.data now),
         some (parseTokenResponse resp.data now))) := by
  refine ⟨?_, ?_, ?_, ?_, ?_⟩
  · intro h; subst h; rfl
  · intro t ht hr; subst ht
    simp [refreshAccessToken, hr]
  · intro t ht hr hh; subst ht; subst hh
    simp [refreshAccessToken, hr]
  · intro t resp ht hr hh hst; subst ht; subst hh
    simp [refreshAccessToken, hr, hst]
  · intro t resp ht hr hh hst; subst ht; subst hh
    simp [refreshAccessToken, hr, hst]

/-- C6 witness: a successful refresh wholly replaces the stored tokens. -/
theorem c6_witness :
    refreshAccessToken (some sampleTokens) (.ok ⟨200, sampleTokenResponse⟩)
      1000 =
    (some ⟨"mock-access-token", some "mock-refresh-token", none, some 3601000,
       none⟩,
     some ⟨"mock-access-token", some "mock-refresh-token", none, some 3601000,
       none⟩) := by
  have h := (c6_theorem (some sampleTokens) (.ok ⟨200, sampleTokenResponse⟩)
    1000).2.2.2.2 sampleTokens ⟨200, sampleTokenResponse⟩ rfl rfl rfl rfl
  rw [h]
  rfl

/-- C3 counterexample: a stored token whose expiry timestamp is exactly 0
lies in the past at now = 1700000000000, yet getAccessToken returns it
unchanged without triggering a refresh — even when a refresh would have
succeeded — because the truthiness guard treats expiry 0 as no expiry. -/
theorem c3_counterexample :
    (getAccessToken (some c3StaleTokens) 1700000000000
        (some c3FreshTokens)).1 = some "stale-access" ∧
    c3StaleTokens.expiresAt = some 0 ∧
    ((0 : Int) < 1700000000000) :=
  ⟨rfl, rfl, by decide⟩

/-- C3 amended: getAccessToken returns null when no tokens are stored; when
the stored expiry is non-null, nonzero and within 60 seconds of now or in
the past, it triggers a refresh, returning null on failure and the freshly
stored access token on success; otherwise it returns the stored token
unchanged; and a stored token with nonzero expiry in the past is never
returned. A stored expiry of exactly 0 is treated as no expiry by the
truthiness guard (such a state is never produced by parseTokenResponse). -/
theorem c3_theorem (stored : Option TokenState) (now : Int)
    (refreshResult : Option TokenState) :
    (stored = none → getAccessToken stored now refreshResult = (none, none)) ∧
    (∀ t e, stored = some t → t.expiresAt = some e → e ≠ 0 →
      e - expirationBuffer < now →
      (refreshResult = none →
        getAccessToken stored now refreshResult = (none, stored)) ∧
      (∀ fresh, refreshResult = some fresh →
        getAccessToken stored now refreshResult =
          (some fresh.accessToken, some fresh))) ∧
    (∀ t, stored = some t → expiresSoon t.expiresAt now = false →
      getAccessToken stored now refreshResult =
        (some t.accessToken, stored)) ∧
    (∀ t e, stored = some t → t.expiresAt = some e → e ≠ 0 → e < now →
      ∀ a, (getAccessToken stored now refreshResult).1 = some a →
        ∃ fresh, refreshResult = some fresh ∧ a = fresh.accessToken) := by
  refine ⟨?_, ?_, ?_, ?_⟩
  · intro h; subst h; rfl
  · intro t e ht he hne hlt
    subst ht
    have hsoon : expiresSoon t.expiresAt now = true := by
      simp [expiresSoon, he, hne, hlt]
    constructor
    · intro hr
      simp [getAccessToken, hsoon, hr]
    · intro fresh hr
      simp [getAccessToken, hsoon, hr]
  · intro t ht hsoon
    subst ht
    simp [getAccessToken, hsoon]
  · intro t e ht he hne hlt a ha
    subst ht
    have hsoon : expiresSoon t.expiresAt now = true := by
      have : e - expirationBuffer < now := by
        have hb : (0 : Int) < expirationBuffer := by decide
        omega
      simp [expiresSoon, he, hne, this]
    cases hr : refreshResult with
    | none => simp [getAccessToken, hsoon, hr] at ha
    | some fresh =>
      refine ⟨fresh, rfl, ?_⟩
      simp [getAccessToken, hsoon, hr] at ha
      exact ha.symm

/-- C3 witness: the amended theorem applied to a token 10 seconds from
expiry (refresh succeeds and the fresh token is returned) and to a token one
hour from expiry (returned unchanged). -/
theorem c3_witness :
    getAccessToken (some ⟨"soon-access", some "r", none, some 1700000010000,
        none⟩) 1700000000000 (some c3FreshTokens) =
      (some "fresh-access", some c3FreshTokens) ∧
    getAccessToken (some ⟨"good-access", some "r", none, some 1700003600000,
        none⟩) 1700000000000 (some c3FreshTokens) =
      (some "good-access",
       some ⟨"good-access", some "r", none, some 1700003600000, none⟩) :=
  ⟨((c3_theorem (some ⟨"soon-access", some "r", none, some 1700000010000,
        none⟩) 1700000000000 (some c3FreshTokens)).2.1
      ⟨"soon-access", some "r", none, some 1700000010000, none⟩
      1700000010000 rfl rfl (by decide) (by decide)).2
      c3FreshTokens rfl,
   (c3_theorem (some ⟨"good-access", some "r", none, some 1700003600000,
        none⟩) 1700000000000 (some c3FreshTokens)).2.2.1
      ⟨"good-access", some "r", none, some 1700003600000, none⟩
      rfl (by decide)⟩

/-! ### Coordinator lemmas -/

theorem coordRun_cons {α : Type} (s : CoordState α) (e : CoordEvent α)
    (es : List (CoordEvent α)) :
    coordRun s (e :: es) = coordRun (coordStep s e) es := rfl

theorem coordRun_calls {α : Type} (cs : List Nat) :
    ∀ (l : List Nat) (n : Nat) (d : List (Nat × α)),
      coordRun ⟨some l, n, d⟩ (cs.map CoordEvent.call) = ⟨some (l ++ cs), n, d⟩ := by
  induction cs with
  | nil => intro l n d; simp [coordRun]
  | cons c cs ih =>
    intro l n d
    rw [List.map_cons, coordRun_cons]
    have h1 : coordStep (⟨some l, n, d⟩ : CoordState α) (CoordEvent.call c) =
        ⟨some (l ++ [c]), n, d⟩ := rfl
    rw [h1, ih (l ++ [c]) n d]
    simp

/-- C4: overlapping calls to TokenRefreshCoordinator.refresh collapse into
one invocation of the refresh function — over any event-loop interleaving
of calls before the in-flight promise settles, the function runs exactly
once, every caller is delivered the same settled result, isRefreshing is
true exactly while the refresh is outstanding, and a call after settlement
invokes the function a second time. -/
theorem c4_theorem (α : Type) (cs : List Nat) (r : α) (caller2 : Nat)
    (h : cs ≠ []) :
    (coordRun (@coordInit α) (cs.map CoordEvent.call)).fnCalls = 1 ∧
    isRefreshing (coordRun (@coordInit α) (cs.map CoordEvent.call)) = true ∧
    isRefreshing (@coordInit α) = false ∧
    (∀ p : List Nat, p ≠ [] →
      isRefreshing (coordRun (@coordInit α) (p.map CoordEvent.call)) = true) ∧
    coordStep (coordRun (@coordInit α) (cs.map CoordEvent.call))
        (CoordEvent.settle r) =
      ⟨none, 1, cs.map (fun c => (c, r))⟩ ∧
    isRefreshing (coordStep (coordRun (@coordInit α) (cs.map CoordEvent.call))
        (CoordEvent.settle r)) = false ∧
    (coordStep (coordStep (coordRun (@coordInit α) (cs.map CoordEvent.call))
        (CoordEvent.settle r)) (CoordEvent.call caller2)).fnCalls = 2 := by
  have hrun : ∀ ds : List Nat, ds ≠ [] →
      coordRun (@coordInit α) (ds.map CoordEvent.call) =
        ⟨some ds, 1, []⟩ := by
    intro ds hds
    cases ds with
    | nil => exact absurd rfl hds
    | cons c ds =>
      rw [List.map_cons, coordRun_cons]
      have h1 : coordStep (@coordInit α) (CoordEvent.call c) =
          ⟨some [c], 1, []⟩ := rfl
      rw [h1, coordRun_calls ds [c] 1 []]
      simp
  rw [hrun cs h]
  refine ⟨rfl, rfl, rfl, ?_, ?_, ?_, ?_⟩
  · intro p hp
    rw [hrun p hp]
    rfl
  · simp [coordStep]
  · rfl
  · rfl

/-- C4 witness: three concurrent callers, a refresh settling with a failure
result (null tokens), and a fourth call after settlement. -/
theorem c4_witness :
    (coordRun (@coordInit (Option TokenState))
        ([0, 1, 2].map CoordEvent.call)).fnCalls = 1 ∧
    coordStep (coordRun (@coordInit (Option TokenState))
        ([0, 1, 2].map CoordEvent.call)) (CoordEvent.settle none) =
      ⟨none, 1, [(0, none), (1, none), (2, none)]⟩ ∧
    (coordStep (coordStep (coordRun (@coordInit (Option TokenState))
        ([0, 1, 2].map CoordEvent.call)) (CoordEvent.settle none))
      (CoordEvent.call 3)).fnCalls = 2 :=
  have h := c4_theorem (Option TokenState) [0, 1, 2] none 3 (by decide)
  ⟨h.1, by rw [h.2.2.2.2.1]; rfl, h.2.2.2.2.2.2⟩

/-! ### Client state machine -/

/-- C8 counterexample: the state reached by loading tokens that carry no ID
token is reachable, has isAuthenticated = true and a null jwt — so
isAuthenticated is not equivalent to the presence of a decoded JWT. -/
theorem c8_counterexample :
    Reachable ⟨true, false, none, none, none⟩ ∧
    (⟨true, false, none, none, none⟩ : AuthState).isAuthenticated = true ∧
    (⟨true, false, none, none, none⟩ : AuthState).jwt = none :=
  ⟨Reachable.loadUser initialAuthState none none Reachable.init, rfl, rfl⟩

/-- C8 amended: in every reachable AuthState, a non-null decoded JWT implies
isAuthenticated = true; the converse fails because loadUserFromTokens sets
isAuthenticated = true even when the tokens carry no ID token. -/
theorem c8_theorem (s : AuthState) (h : Reachable s) (hj : s.jwt ≠ none) :
    s.isAuthenticated = true := by
  induction h with
  | init => exact absurd rfl hj
  | setLoading s hs ih => exact ih hj
  | clearLoading s hs ih => exact ih hj
  | loadUser s jwt user hs ih => rfl
  | fail s e hs ih => exact ih hj
  | doLogout s hs ih => exact absurd rfl hj

/-- C8 witness: the amended theorem applied to a reachable state holding a
decoded JWT. -/
theorem c8_witness :
    Reachable ⟨true, false, some "payload", none, none⟩ ∧
    (⟨true, false, some "payload", none, none⟩ : AuthState).isAuthenticated =
      true :=
  have hr : Reachable ⟨true, false, some "payload", none, none⟩ :=
    Reachable.loadUser initialAuthState (some "payload") none Reachable.init
  ⟨hr, c8_theorem ⟨true, false, some "payload", none, none⟩ hr (by simp)⟩

/-! ### Authorization URL -/

/-- C7 counterexample: a call-level additional parameter named response_type
overrides the core parameter, so the built URL carries
response_type=token instead of response_type=code. -/
theorem c7_counterexample :
    authUrlParam sampleProvider ⟨false, none, [("response_type", "token")]⟩
      "challenge-1" "state-1" "response_type" = some "token" ∧
    (some "token" : Option String) ≠ some "code" :=
  ⟨rfl, by decide⟩

/-- C7 amended: whenever neither the provider-level nor the call-level
additional parameters contain the keys response_type,
code_challenge_method or state, the built URL contains response_type=code,
code_challenge_method=S256 and a state parameter equal to the state value
the same call wrote into flow storage; a colliding extra parameter
overrides the core value (call level over provider level over core). -/
theorem c7_theorem (provider : ProviderConfig) (options : AuthorizeOptions)
    (codeVerifier codeChallenge st currentPath : String) (flow : FlowStore)
    (h1 : lookupParam options.additionalParams "response_type" = none)
    (h2 : lookupParam provider.additionalAuthParams "response_type" = none)
    (h3 : lookupParam options.additionalParams "code_challenge_method" = none)
    (h4 : lookupParam provider.additionalAuthParams "code_challenge_method" =
      none)
    (h5 : lookupParam options.additionalParams "state" = none)
    (h6 : lookupParam provider.additionalAuthParams "state" = none) :
    authUrlParam provider options codeChallenge st "response_type" =
      some "code" ∧
    authUrlParam provider options codeChallenge st "code_challenge_method" =
      some "S256" ∧
    authUrlParam provider options codeChallenge st "state" = some st ∧
    (buildAuthorizationUrlFlow provider options codeVerifier st currentPath
      flow).state = some st := by
  refine ⟨?_, ?_, ?_, rfl⟩
  · unfold authUrlParam
    rw [h1, h2]
    rfl
  · unfold authUrlParam
    rw [h3, h4]
    rfl
  · unfold authUrlParam
    rw [h5, h6]
    rfl

/-- C7 witness: the amended theorem applied to a provider and options with
no extra parameters. -/
theorem c7_witness :
    authUrlParam sampleProvider ⟨false, none, []⟩ "challenge-1" "state-1"
      "response_type" = some "code" ∧
    authUrlParam sampleProvider ⟨false, none, []⟩ "challenge-1" "state-1"
      "state" = some "state-1" ∧
    (buildAuthorizationUrlFlow sampleProvider ⟨false, none, []⟩ "verifier-1"
      "state-1" "/" ⟨none, none, none, none, none⟩).state = some "state-1" :=
  have h := c7_theorem sampleProvider ⟨false, none, []⟩ "verifier-1"
    "challenge-1" "state-1" "/" ⟨none, none, none, none, none⟩
    rfl rfl rfl rfl rfl rfl
  ⟨h.1, h.2.2.1, h.2.2.2⟩

end AuthCodePkce
